import Mathlib

/-!
Shallow embedding of `src/ape_test/runners.py` (`PytestApeRunner`):
the pytest plugin that wraps each test with blockchain snapshot/revert
isolation, lazily connects a provider after collection, and disconnects
at session end.

Modelling conventions:
* The external collaborators (provider, networks, logger) are modelled by
  an explicit event trace (`Event`) recording every outbound call.
* `pytest_runtest_protocol` is a pytest hookwrapper: the code after
  `yield` runs on every exit path of the wrapped body (pluggy captures
  body exceptions in the outcome object and resumes the wrapper), while
  an exception raised in the wrapper before the `yield` propagates out of
  the hook and the body never runs.  The embedding makes this explicit:
  the body outcome is an input, the post-`yield` code is unconditional,
  and `raised` records an exception escaping the wrapper itself.
* Snapshot identifiers are the integers returned by the eth-tester backed
  test provider; Python truthiness of `Optional[int]` (`if snapshot_id:`)
  is `False` exactly for `None` and `0`.
-/

namespace ApeTest

/-- Snapshot identifiers: integer tokens returned by `provider.snapshot()`. -/
abbrev SnapshotId := Int

/-- Python truthiness of the `Optional[SnapshotId]` local `snapshot_id`:
`None` and the integer `0` are falsy, every other id is truthy. -/
def truthyOptId : Option SnapshotId → Bool
  | none => false
  | some n => n != 0

/-- Outcome of the wrapped test body, opaque to the runner. -/
inductive TestOutcome where
  | passed
  | failed
  | errored
deriving DecidableEq, Repr

/-- Behaviour of one call of the provider's `snapshot()` method. -/
inductive SnapshotResult where
  | ok (id : SnapshotId)
  | notImplementedError
  | otherError (e : Nat)
deriving DecidableEq, Repr

/-- An execution provider as seen by the runner: an opaque identity plus
whether its object has a `snapshot` attribute at all. -/
structure Provider where
  pid : Nat
  hasSnapshotAttr : Bool
deriving DecidableEq, Repr

/-- Embeds `hasattr(self._provider, "snapshot")` where `self._provider` is
`Optional[TestProviderAPI]`: `hasattr(None, "snapshot")` is `False`. -/
def hasattrSnapshot : Option Provider → Bool
  | none => false
  | some p => p.hasSnapshotAttr

/-- One outbound call to a collaborator (provider or logger), in order. -/
inductive Event where
  | snapshotCall (pid : Nat)
  | revertCall (pid : Nat) (id : SnapshotId)
  | warn (msg : String)
  | testBody (outcome : TestOutcome)
  | connectCall (pid : Nat)
  | disconnectCall (pid : Nat)
deriving DecidableEq, Repr

/-- The fields `PytestApeRunner.__init__` stores on the runner itself:
`config` (of which only `getoption("network")` is read), `project`
(opaque, never touched), and the warning flag
`_warned_for_missing_features`. -/
structure RunnerState where
  config_network : String
  project : Nat
  warned : Bool
deriving DecidableEq, Repr

/-- The networks collaborator: the runner reads and writes only its
`active_provider` field. -/
structure NetworksState where
  active_provider : Option Provider
deriving DecidableEq, Repr

/-- Whole session-visible state: runner-owned fields plus the networks
collaborator's activation state. -/
structure SessState where
  runner : RunnerState
  net : NetworksState
deriving DecidableEq, Repr

/-- The warning text, concatenated exactly as in the source. -/
def missingSnapshotWarning : String :=
  "The connected provider does not support snapshotting. " ++
  "Tests will not be completely isolated."

/-- Embeds `PytestApeRunner._warn_for_unimplemented_snapshot`: return early
when already warned, otherwise log one warning and set the flag. -/
def warn_for_unimplemented_snapshot (s : RunnerState) :
    RunnerState × List Event :=
  if s.warned then (s, [])
  else ({ s with warned := true }, [Event.warn missingSnapshotWarning])

/-- Result of one execution of the `pytest_runtest_protocol` hookwrapper. -/
structure RuntestResult where
  state : SessState
  events : List Event
  /-- exception escaping the wrapper itself (not the test body) -/
  raised : Option Nat
  /-- the test outcome as reported by the host runner, untouched by the
  wrapper; `none` when the body never ran -/
  reported : Option TestOutcome
deriving DecidableEq, Repr

/-- Embeds `PytestApeRunner.pytest_runtest_protocol`:

```
snapshot_id = None
if hasattr(self._provider, "snapshot"):
    try:
        snapshot_id = self._provider.snapshot()
    except NotImplementedError:
        self._warn_for_unimplemented_snapshot()
else:
    self._warn_for_unimplemented_snapshot()
yield
if snapshot_id:
    self._provider.revert(snapshot_id)
```

`snapRes` is what the provider's `snapshot()` does on this call and
`body` the outcome of the wrapped test body. -/
def pytest_runtest_protocol (s : SessState) (snapRes : SnapshotResult)
    (body : TestOutcome) : RuntestResult :=
  match s.net.active_provider with
  | some p =>
    if p.hasSnapshotAttr then
      match snapRes with
      | SnapshotResult.ok id =>
        -- snapshot_id = some id; yield; `if snapshot_id:` is Python truthiness
        { state := s
          events := [Event.snapshotCall p.pid, Event.testBody body] ++
            (if truthyOptId (some id) then [Event.revertCall p.pid id] else [])
          raised := none
          reported := some body }
      | SnapshotResult.notImplementedError =>
        -- caught: warn once; snapshot_id stays None so no revert after yield
        let w := warn_for_unimplemented_snapshot s.runner
        { state := { s with runner := w.1 }
          events := [Event.snapshotCall p.pid] ++ w.2 ++ [Event.testBody body]
          raised := none
          reported := some body }
      | SnapshotResult.otherError e =>
        -- not caught by `except NotImplementedError`: the exception escapes
        -- the wrapper before the yield; the body never runs, nothing reverts
        { state := s
          events := [Event.snapshotCall p.pid]
          raised := some e
          reported := none }
    else
      -- provider present but without a `snapshot` attribute
      let w := warn_for_unimplemented_snapshot s.runner
      { state := { s with runner := w.1 }
        events := w.2 ++ [Event.testBody body]
        raised := none
        reported := some body }
  | none =>
    -- no active provider: `hasattr(None, "snapshot")` is False, so the
    -- else-branch warns here as well
    let w := warn_for_unimplemented_snapshot s.runner
    { state := { s with runner := w.1 }
      events := w.2 ++ [Event.testBody body]
      raised := none
      reported := some body }

/-- Embeds `PytestApeRunner.pytest_collection_finish` (hookwrapper, after
its `yield`):

```
if not outcome.get_result() and session.items and not self.networks.active_provider:
    self.networks.active_provider = self.networks.get_provider_from_choice(
        self._network_choice)
    self.networks.active_provider.connect()
```

`outcomeResultTruthy` is the truthiness of `outcome.get_result()`,
`items` the collected test items, and `resolve` models
`networks.get_provider_from_choice`, applied to
`self._network_choice = config.getoption("network")`. -/
def pytest_collection_finish (s : SessState) (outcomeResultTruthy : Bool)
    (items : List Nat) (resolve : String → Provider) :
    SessState × List Event :=
  if !outcomeResultTruthy && !items.isEmpty && !s.net.active_provider.isSome then
    let p := resolve s.runner.config_network
    ({ s with net := { active_provider := some p } }, [Event.connectCall p.pid])
  else
    (s, [])

/-- Embeds `PytestApeRunner.pytest_sessionfinish`:
`if self._provider is not None: self._provider.disconnect()`. -/
def pytest_sessionfinish (s : SessState) : List Event :=
  match s.net.active_provider with
  | some p => [Event.disconnectCall p.pid]
  | none => []

/-- One lifecycle hook invocation during a session, with the responses of
the environment it needs. -/
inductive HookCall where
  | collectionFinish (outcomeResultTruthy : Bool) (items : List Nat)
      (resolve : String → Provider)
  | runtest (snapRes : SnapshotResult) (body : TestOutcome)

/-- Execute one hook call. -/
def step (s : SessState) : HookCall → SessState × List Event
  | HookCall.collectionFinish rt items resolve =>
      pytest_collection_finish s rt items resolve
  | HookCall.runtest snapRes body =>
      let r := pytest_runtest_protocol s snapRes body
      (r.state, r.events)

/-- Execute a sequence of hook calls, accumulating the event trace. -/
def runSession (s : SessState) : List HookCall → SessState × List Event
  | [] => (s, [])
  | c :: cs =>
      let r1 := step s c
      let r2 := runSession r1.1 cs
      (r2.1, r1.2 ++ r2.2)

/-- Session-start state: `__init__` sets the warning flag to `False`; no
provider is active before collection connects one. -/
def initState (network : String) (project : Nat) : SessState :=
  { runner := { config_network := network, project := project, warned := false }
    net := { active_provider := none } }

/-- Recognise warning events. -/
def isWarnEvent : Event → Bool
  | Event.warn _ => true
  | _ => false

/-- Recognise `snapshot()` call events. -/
def isSnapshotEvent : Event → Bool
  | Event.snapshotCall _ => true
  | _ => false

/-- Recognise `revert(...)` call events. -/
def isRevertEvent : Event → Bool
  | Event.revertCall _ _ => true
  | _ => false

/-- Recognise `connect()` call events. -/
def isConnectEvent : Event → Bool
  | Event.connectCall _ => true
  | _ => false

/-- Recognise `disconnect()` call events. -/
def isDisconnectEvent : Event → Bool
  | Event.disconnectCall _ => true
  | _ => false

/-- Number of warning events in a trace. -/
def warnCount (evs : List Event) : Nat := (evs.filter isWarnEvent).length

/-- Concrete state: active provider (id 1) whose object has a `snapshot`
attribute; warning not yet given. -/
def provState : SessState :=
  { runner := { config_network := "development", project := 0, warned := false }
    net := { active_provider := some { pid := 1, hasSnapshotAttr := true } } }

/-- Concrete state: active provider (id 2) with a `snapshot` attribute;
warning already given earlier in the session. -/
def provState2 : SessState :=
  { runner := { config_network := "development", project := 3, warned := true }
    net := { active_provider := some { pid := 2, hasSnapshotAttr := true } } }

/-- Concrete state: no active provider, warning not yet given. -/
def noProvState : SessState := initState "development" 0

/-- Concrete network resolver used in witnesses. -/
def cfgResolve : String → Provider :=
  fun _ => { pid := 7, hasSnapshotAttr := true }

/-- Warning counts add over concatenated traces. -/
theorem warnCount_append (a b : List Event) :
    warnCount (a ++ b) = warnCount a + warnCount b := by
  simp [warnCount, List.filter_append]

/-- One step emits at most one warning, and only while turning the flag
on: the emitted count plus the incoming flag bit is bounded by the
outgoing flag bit. -/
theorem step_warn_invariant (s : SessState) (c : HookCall) :
    warnCount (step s c).2 + (if s.runner.warned then 1 else 0) ≤
      (if (step s c).1.runner.warned then 1 else 0) := by
  cases c with
  | collectionFinish rt items resolve =>
    simp only [step, pytest_collection_finish]
    split
    · simp [warnCount, isWarnEvent]
    · simp [warnCount]
  | runtest snapRes body =>
    cases hp : s.net.active_provider with
    | none =>
      cases hw : s.runner.warned <;>
        simp [step, pytest_runtest_protocol, hp,
          warn_for_unimplemented_snapshot, hw, warnCount, isWarnEvent]
    | some p =>
      cases ha : p.hasSnapshotAttr <;> cases snapRes <;>
        cases hw : s.runner.warned <;>
          simp [step, pytest_runtest_protocol, hp, ha,
            warn_for_unimplemented_snapshot, hw, warnCount, isWarnEvent,
            truthyOptId, List.filter_append]

/-- Once the warning flag is set, no step resets it. -/
theorem step_warned_mono (s : SessState) (c : HookCall)
    (h : s.runner.warned = true) : (step s c).1.runner.warned = true := by
  have hinv := step_warn_invariant s c
  rw [h] at hinv
  by_contra hc
  rw [Bool.not_eq_true] at hc
  rw [hc] at hinv
  simp at hinv

/-- Session-level warning invariant: the warnings emitted by a whole
trace plus the incoming flag bit are bounded by the final flag bit. -/
theorem runSession_warn_invariant (s : SessState) (calls : List HookCall) :
    warnCount (runSession s calls).2 + (if s.runner.warned then 1 else 0) ≤
      (if (runSession s calls).1.runner.warned then 1 else 0) := by
  induction calls generalizing s with
  | nil => simp [runSession, warnCount]
  | cons c cs ih =>
    simp only [runSession]
    have h1 := step_warn_invariant s c
    have h2 := ih (step s c).1
    rw [warnCount_append]
    omega

/-- The per-test wrapper never touches the activation state and never
emits a connect event. -/
theorem runtest_preserves_net (s : SessState) (snapRes : SnapshotResult)
    (body : TestOutcome) :
    (pytest_runtest_protocol s snapRes body).state.net = s.net ∧
    (pytest_runtest_protocol s snapRes body).events.filter isConnectEvent
      = [] := by
  cases hp : s.net.active_provider with
  | none =>
    cases hw : s.runner.warned <;>
      simp [pytest_runtest_protocol, hp, warn_for_unimplemented_snapshot,
        hw, isConnectEvent]
  | some p =>
    cases ha : p.hasSnapshotAttr <;> cases snapRes <;>
      cases hw : s.runner.warned <;>
        simp [pytest_runtest_protocol, hp, ha,
          warn_for_unimplemented_snapshot, hw, isConnectEvent,
          truthyOptId, List.filter_append]

/-- After one step a provider is active iff one was active before or the
step emitted a connect. -/
theorem step_active_iff (s : SessState) (c : HookCall) :
    (step s c).1.net.active_provider.isSome = true ↔
      (s.net.active_provider.isSome = true ∨
        (step s c).2.filter isConnectEvent ≠ []) := by
  cases c with
  | collectionFinish rt items resolve =>
    simp only [step, pytest_collection_finish]
    split
    · simp [isConnectEvent]
    · simp
  | runtest snapRes body =>
    have h := runtest_preserves_net s snapRes body
    simp [step, h.1, h.2]

/-- Over a whole trace a provider is active at the end iff one was active
at the start or some step connected one. -/
theorem runSession_active_iff (s : SessState) (calls : List HookCall) :
    (runSession s calls).1.net.active_provider.isSome = true ↔
      (s.net.active_provider.isSome = true ∨
        (runSession s calls).2.filter isConnectEvent ≠ []) := by
  induction calls generalizing s with
  | nil => simp [runSession]
  | cons c cs ih =>
    simp only [runSession]
    rw [ih (step s c).1]
    rw [step_active_iff s c]
    simp only [List.filter_append, ne_eq, List.append_eq_nil]
    tauto

/-- Every warning event one step emits carries the exact source text. -/
theorem step_warn_text (s : SessState) (c : HookCall) :
    ((step s c).2.filter isWarnEvent).all
      (fun ev => ev == Event.warn missingSnapshotWarning) = true := by
  cases c with
  | collectionFinish rt items resolve =>
    simp only [step, pytest_collection_finish]
    split
    · simp [isWarnEvent]
    · simp
  | runtest snapRes body =>
    cases hp : s.net.active_provider with
    | none =>
      cases hw : s.runner.warned <;>
        simp [step, pytest_runtest_protocol, hp,
          warn_for_unimplemented_snapshot, hw, isWarnEvent]
    | some p =>
      cases ha : p.hasSnapshotAttr <;> cases snapRes <;>
        cases hw : s.runner.warned <;>
          simp [step, pytest_runtest_protocol, hp, ha,
            warn_for_unimplemented_snapshot, hw, isWarnEvent,
            truthyOptId, List.filter_append]

/-- Every warning event in a whole session trace carries the exact source
text. -/
theorem runSession_warn_text (s : SessState) (calls : List HookCall) :
    ((runSession s calls).2.filter isWarnEvent).all
      (fun ev => ev == Event.warn missingSnapshotWarning) = true := by
  induction calls generalizing s with
  | nil => simp [runSession]
  | cons c cs ih =>
    simp only [runSession, List.filter_append, List.all_append]
    rw [step_warn_text s c, ih (step s c).1]
    rfl

/-- C1: false as stated. Counterexample: `snapshot()` succeeds and the
token `0` is recorded (`snapshot_id = 0`), the test body fails, yet the
wrapper performs no revert at all, because `if snapshot_id:` tests Python
truthiness and `0` is falsy. -/
theorem C1_counterexample :
    (pytest_runtest_protocol provState (SnapshotResult.ok 0)
        TestOutcome.failed).events.filter isSnapshotEvent =
      [Event.snapshotCall 1] ∧
    (pytest_runtest_protocol provState (SnapshotResult.ok 0)
        TestOutcome.failed).events.filter isRevertEvent = [] := by
  decide

/-- C1 (amended): in every per-test wrapping in which a truthy snapshot
token was recorded, `revert(snapshotId)` is executed after the test body
on all exit paths — the event trace is exactly snapshot, then the body
with whatever outcome it had (pass, assertion failure, or exception),
then the revert. -/
theorem C1_revert_runs_on_all_exit_paths (s : SessState) (p : Provider)
    (id : SnapshotId) (body : TestOutcome)
    (hp : s.net.active_provider = some p) (ha : p.hasSnapshotAttr = true)
    (hid : id ≠ 0) :
    (pytest_runtest_protocol s (SnapshotResult.ok id) body).events =
      [Event.snapshotCall p.pid, Event.testBody body,
        Event.revertCall p.pid id] := by
  simp [pytest_runtest_protocol, hp, ha, truthyOptId, hid]

/-- C1 witness: the amended theorem applied at a concrete state, token 5,
and a body that raised. -/
theorem C1_witness :
    (pytest_runtest_protocol provState (SnapshotResult.ok 5)
        TestOutcome.errored).events =
      [Event.snapshotCall 1, Event.testBody TestOutcome.errored,
        Event.revertCall 1 5] :=
  C1_revert_runs_on_all_exit_paths provState
    { pid := 1, hasSnapshotAttr := true } 5 TestOutcome.errored rfl rfl
    (by decide)

/-- C2: false as stated. Counterexample: with no active provider and the
flag unset, the wrapper does trigger the missing-snapshot warning,
because `hasattr(None, "snapshot")` is `False` and the else-branch warns. -/
theorem C2_counterexample :
    noProvState.net.active_provider = none ∧
    (pytest_runtest_protocol noProvState (SnapshotResult.ok 1)
        TestOutcome.passed).events.filter isWarnEvent =
      [Event.warn missingSnapshotWarning] := by
  constructor
  · rfl
  · rfl

/-- C2 (amended): with no active provider the wrapper attempts no snapshot
and no revert, raises nothing, and reports the body outcome unaltered —
but the missing-snapshot warning IS triggered (emitted when the flag is
still unset, suppressed otherwise). -/
theorem C2_no_provider_behavior (s : SessState) (snapRes : SnapshotResult)
    (body : TestOutcome) (h : s.net.active_provider = none) :
    (pytest_runtest_protocol s snapRes body).events.filter isSnapshotEvent
        = [] ∧
    (pytest_runtest_protocol s snapRes body).events.filter isRevertEvent
        = [] ∧
    (pytest_runtest_protocol s snapRes body).raised = none ∧
    (pytest_runtest_protocol s snapRes body).reported = some body ∧
    (pytest_runtest_protocol s snapRes body).events.filter isWarnEvent =
      (if s.runner.warned then [] else [Event.warn missingSnapshotWarning])
    := by
  cases hw : s.runner.warned <;>
    simp [pytest_runtest_protocol, h, warn_for_unimplemented_snapshot, hw,
      isSnapshotEvent, isRevertEvent, isWarnEvent]

/-- C2 witness: the amended theorem applied at a concrete no-provider
state. -/
theorem C2_witness :
    (pytest_runtest_protocol noProvState SnapshotResult.notImplementedError
        TestOutcome.failed).events.filter isSnapshotEvent = [] ∧
    (pytest_runtest_protocol noProvState SnapshotResult.notImplementedError
        TestOutcome.failed).events.filter isRevertEvent = [] ∧
    (pytest_runtest_protocol noProvState SnapshotResult.notImplementedError
        TestOutcome.failed).raised = none ∧
    (pytest_runtest_protocol noProvState SnapshotResult.notImplementedError
        TestOutcome.failed).reported = some TestOutcome.failed ∧
    (pytest_runtest_protocol noProvState SnapshotResult.notImplementedError
        TestOutcome.failed).events.filter isWarnEvent =
      (if noProvState.runner.warned then []
        else [Event.warn missingSnapshotWarning]) :=
  C2_no_provider_behavior noProvState SnapshotResult.notImplementedError
    TestOutcome.failed rfl

/-- C3: false as stated. Counterexample: `snapshot()` succeeds and records
the token `0`, yet revert is never called for that test (`if snapshot_id:`
is Python truthiness and `0` is falsy). -/
theorem C3_counterexample :
    (pytest_runtest_protocol provState2 (SnapshotResult.ok 0)
        TestOutcome.passed).events.filter isSnapshotEvent =
      [Event.snapshotCall 2] ∧
    (pytest_runtest_protocol provState2 (SnapshotResult.ok 0)
        TestOutcome.passed).events.filter isRevertEvent = [] := by
  decide

/-- C3 (amended): whenever `snapshot()` succeeds with a truthy token, the
reverts performed by the wrapper for that test are exactly one call,
carrying exactly the token just returned — never a stale token, since
`snapshot_id` is a per-call local that no state carries across tests. -/
theorem C3_revert_with_exact_fresh_token (s : SessState) (p : Provider)
    (id : SnapshotId) (body : TestOutcome)
    (hp : s.net.active_provider = some p) (ha : p.hasSnapshotAttr = true)
    (hid : id ≠ 0) :
    (pytest_runtest_protocol s (SnapshotResult.ok id) body).events.filter
        isRevertEvent = [Event.revertCall p.pid id] := by
  simp [pytest_runtest_protocol, hp, ha, truthyOptId, hid, isRevertEvent]

/-- C3 witness: the amended theorem applied at a concrete state and
token 42. -/
theorem C3_witness :
    (pytest_runtest_protocol provState2 (SnapshotResult.ok 42)
        TestOutcome.passed).events.filter isRevertEvent =
      [Event.revertCall 2 42] :=
  C3_revert_with_exact_fresh_token provState2
    { pid := 2, hasSnapshotAttr := true } 42 TestOutcome.passed rfl rfl
    (by decide)

/-- C4: when `snapshot()` raises `NotImplementedError`, the wrapper
catches it (nothing escapes), triggers the one-time warning, performs no
revert for that test, and the body still runs and reports its real
outcome unaltered. -/
theorem C4_not_implemented_degrades_gracefully (s : SessState)
    (p : Provider) (body : TestOutcome)
    (hp : s.net.active_provider = some p) (ha : p.hasSnapshotAttr = true) :
    (pytest_runtest_protocol s SnapshotResult.notImplementedError
        body).raised = none ∧
    (pytest_runtest_protocol s SnapshotResult.notImplementedError
        body).reported = some body ∧
    (pytest_runtest_protocol s SnapshotResult.notImplementedError
        body).events.filter isRevertEvent = [] ∧
    (pytest_runtest_protocol s SnapshotResult.notImplementedError
        body).events.filter isWarnEvent =
      (if s.runner.warned then []
        else [Event.warn missingSnapshotWarning]) ∧
    (pytest_runtest_protocol s SnapshotResult.notImplementedError
        body).state.runner.warned = true := by
  cases hw : s.runner.warned <;>
    simp [pytest_runtest_protocol, hp, ha, warn_for_unimplemented_snapshot,
      hw, isRevertEvent, isWarnEvent]

/-- C4 witness: the theorem applied at a concrete state with a failing
body. -/
theorem C4_witness :
    (pytest_runtest_protocol provState SnapshotResult.notImplementedError
        TestOutcome.failed).raised = none ∧
    (pytest_runtest_protocol provState SnapshotResult.notImplementedError
        TestOutcome.failed).reported = some TestOutcome.failed ∧
    (pytest_runtest_protocol provState SnapshotResult.notImplementedError
        TestOutcome.failed).events.filter isRevertEvent = [] ∧
    (pytest_runtest_protocol provState SnapshotResult.notImplementedError
        TestOutcome.failed).events.filter isWarnEvent =
      (if provState.runner.warned then []
        else [Event.warn missingSnapshotWarning]) ∧
    (pytest_runtest_protocol provState SnapshotResult.notImplementedError
        TestOutcome.failed).state.runner.warned = true :=
  C4_not_implemented_degrades_gracefully provState
    { pid := 1, hasSnapshotAttr := true } TestOutcome.failed rfl rfl

/-- C5: across any sequence of hook calls the missing-snapshot warning is
emitted at most once per session, and once the flag is true it never
returns to false and no further warning of this kind is emitted. -/
theorem C5_warning_at_most_once (s : SessState) (calls : List HookCall) :
    warnCount (runSession s calls).2 +
        (if s.runner.warned then 1 else 0) ≤ 1 ∧
    (s.runner.warned = true →
      (runSession s calls).1.runner.warned = true ∧
      warnCount (runSession s calls).2 = 0) := by
  have h := runSession_warn_invariant s calls
  refine ⟨?_, ?_⟩
  · have hle : (if (runSession s calls).1.runner.warned then 1 else 0) ≤ 1 := by
      split <;> omega
    omega
  · intro hw0
    rw [hw0] at h
    cases hw : (runSession s calls).1.runner.warned with
    | false =>
      rw [hw] at h
      simp at h
    | true =>
      rw [hw] at h
      simp at h
      exact ⟨rfl, by omega⟩

/-- C5 witness: a session starting with the flag already set runs a test
against a provider that fails snapshotting, and still no warning is
emitted and the flag stays set. -/
theorem C5_witness :
    (runSession provState2
        [HookCall.runtest SnapshotResult.notImplementedError
          TestOutcome.passed]).1.runner.warned = true ∧
    warnCount (runSession provState2
        [HookCall.runtest SnapshotResult.notImplementedError
          TestOutcome.passed]).2 = 0 :=
  (C5_warning_at_most_once provState2
      [HookCall.runtest SnapshotResult.notImplementedError
        TestOutcome.passed]).2 rfl

/-- C6: false as stated. Counterexample: when the collection hook's
outcome result is truthy, `connect()` is skipped even though at least one
test was collected and no provider is active: the guard also requires
`not outcome.get_result()`. -/
theorem C6_counterexample :
    noProvState.net.active_provider = none ∧
    ([0] : List Nat) ≠ [] ∧
    pytest_collection_finish noProvState true [0] cfgResolve =
      (noProvState, []) := by
  refine ⟨rfl, by decide, rfl⟩

/-- C6 (amended): connect() is called exactly when the hook outcome's
result is falsy AND at least one test was collected AND no provider is
active — resolving a provider from the configured network choice and
recording it as active; with zero collected tests it is never called, and
a call while a provider is already active is a no-op. -/
theorem C6_lazy_idempotent_connect (s : SessState) (rt : Bool)
    (items : List Nat) (resolve : String → Provider) :
    (rt = false ∧ items ≠ [] ∧ s.net.active_provider = none →
      pytest_collection_finish s rt items resolve =
        ({ s with net :=
            { active_provider := some (resolve s.runner.config_network) } },
          [Event.connectCall (resolve s.runner.config_network).pid])) ∧
    (items = [] →
      pytest_collection_finish s rt items resolve = (s, [])) ∧
    (∀ p, s.net.active_provider = some p →
      pytest_collection_finish s rt items resolve = (s, [])) ∧
    (rt = true →
      pytest_collection_finish s rt items resolve = (s, [])) := by
  refine ⟨?_, ?_, ?_, ?_⟩
  · rintro ⟨h1, h2, h3⟩
    cases items with
    | nil => exact absurd rfl h2
    | cons i is => simp [pytest_collection_finish, h1, h3]
  · intro h
    simp [pytest_collection_finish, h]
  · intro p hp
    simp [pytest_collection_finish, hp]
  · intro h
    simp [pytest_collection_finish, h]

/-- C6 witness: the amended theorem applied at a fresh session state with
one collected item, a falsy hook result, and a concrete resolver. -/
theorem C6_witness :
    pytest_collection_finish noProvState false [0] cfgResolve =
      ({ noProvState with net :=
          { active_provider :=
              some (cfgResolve noProvState.runner.config_network) } },
        [Event.connectCall
          (cfgResolve noProvState.runner.config_network).pid]) :=
  (C6_lazy_idempotent_connect noProvState false [0] cfgResolve).1
    ⟨rfl, by decide, rfl⟩

/-- C7: over any session starting at session-start state, session finish
calls disconnect exactly once when a connect happened during the session
(a provider was activated) and performs nothing at all otherwise. -/
theorem C7_disconnect_exactly_once_iff_activated (network : String)
    (project : Nat) (calls : List HookCall) :
    ((pytest_sessionfinish (runSession (initState network project)
        calls).1).filter isDisconnectEvent).length =
      (if (runSession (initState network project) calls).2.filter
          isConnectEvent = [] then 0 else 1) ∧
    (pytest_sessionfinish (runSession (initState network project)
        calls).1).length =
      (if (runSession (initState network project) calls).2.filter
          isConnectEvent = [] then 0 else 1) := by
  have h0 : (initState network project).net.active_provider.isSome = false :=
    rfl
  have h := runSession_active_iff (initState network project) calls
  rw [h0] at h
  simp only [Bool.false_eq_true, false_or, ne_eq] at h
  cases hap : (runSession (initState network project)
      calls).1.net.active_provider with
  | none =>
    rw [hap] at h
    simp only [Option.isSome_none, Bool.false_eq_true, false_iff,
      not_not] at h
    simp [pytest_sessionfinish, hap, h]
  | some p =>
    rw [hap] at h
    simp only [Option.isSome_some, true_iff] at h
    simp [pytest_sessionfinish, hap, h, isDisconnectEvent]

/-- C8: every warning event in any session trace is the single
warning-level message with exactly the specified text. -/
theorem C8_warning_exact_text (s : SessState) (calls : List HookCall) :
    ((runSession s calls).2.filter isWarnEvent).all
      (fun ev => ev == Event.warn
        "The connected provider does not support snapshotting. Tests will not be completely isolated.")
      = true := by
  have h : missingSnapshotWarning =
      "The connected provider does not support snapshotting. Tests will not be completely isolated." :=
    rfl
  rw [← h]
  exact runSession_warn_text s calls

/-- C9: the per-test wrapper mutates nothing the runner owns except the
one-time warning flag — the network-choice configuration, the project and
the networks reference (including the active provider) are unchanged, and
the flag changes only from false to true. -/
theorem C9_frame_only_warning_flag (s : SessState)
    (snapRes : SnapshotResult) (body : TestOutcome) :
    (pytest_runtest_protocol s snapRes body).state.runner.config_network =
      s.runner.config_network ∧
    (pytest_runtest_protocol s snapRes body).state.runner.project =
      s.runner.project ∧
    (pytest_runtest_protocol s snapRes body).state.net = s.net ∧
    ((pytest_runtest_protocol s snapRes body).state.runner.warned =
        s.runner.warned ∨
      (s.runner.warned = false ∧
        (pytest_runtest_protocol s snapRes body).state.runner.warned =
          true)) := by
  cases hp : s.net.active_provider with
  | none =>
    cases hw : s.runner.warned <;>
      simp [pytest_runtest_protocol, hp, warn_for_unimplemented_snapshot, hw]
  | some p =>
    cases ha : p.hasSnapshotAttr <;> cases snapRes <;>
      cases hw : s.runner.warned <;>
        simp [pytest_runtest_protocol, hp, ha,
          warn_for_unimplemented_snapshot, hw]

/-- C10: when `snapshot()` raises anything other than
`NotImplementedError`, the wrapper does not catch it: the exception
escapes the wrapper, no warning is triggered by it, no revert is
performed for that test, and the runner state is untouched. -/
theorem C10_other_exception_propagates (s : SessState) (p : Provider)
    (e : Nat) (body : TestOutcome)
    (hp : s.net.active_provider = some p) (ha : p.hasSnapshotAttr = true) :
    (pytest_runtest_protocol s (SnapshotResult.otherError e) body).raised =
      some e ∧
    (pytest_runtest_protocol s (SnapshotResult.otherError e)
        body).events.filter isWarnEvent = [] ∧
    (pytest_runtest_protocol s (SnapshotResult.otherError e)
        body).events.filter isRevertEvent = [] ∧
    (pytest_runtest_protocol s (SnapshotResult.otherError e) body).state =
      s ∧
    (pytest_runtest_protocol s (SnapshotResult.otherError e)
        body).reported = none := by
  simp [pytest_runtest_protocol, hp, ha, isWarnEvent, isRevertEvent]

/-- C10 witness: the theorem applied at a concrete state and a concrete
foreign exception. -/
theorem C10_witness :
    (pytest_runtest_protocol provState (SnapshotResult.otherError 99)
        TestOutcome.passed).raised = some 99 ∧
    (pytest_runtest_protocol provState (SnapshotResult.otherError 99)
        TestOutcome.passed).events.filter isWarnEvent = [] ∧
    (pytest_runtest_protocol provState (SnapshotResult.otherError 99)
        TestOutcome.passed).events.filter isRevertEvent = [] ∧
    (pytest_runtest_protocol provState (SnapshotResult.otherError 99)
        TestOutcome.passed).state = provState ∧
    (pytest_runtest_protocol provState (SnapshotResult.otherError 99)
        TestOutcome.passed).reported = none :=
  C10_other_exception_propagates provState
    { pid := 1, hasSnapshotAttr := true } 99 TestOutcome.passed rfl rfl

end ApeTest
